import Mathlib

/-!
Shallow embedding of `hw_12.py`, a command-line contact manager, and proofs
about the claims of its specification.

Modelling conventions:
* Python strings are Lean `String` (lists of `Char` where convenient);
  `str.isdigit` / `str.lower` are modelled over ASCII.
* Python exceptions are explicit: fallible code returns `Except PyExn` or the
  three-valued `POut` (ok / exception / non-termination).
* Python object identity matters for `phone not in self.phones` (the classes
  define no `__eq__`), so a `Phone` carries an object id `oid`; every
  `Phone(...)` construction allocates a fresh id from a threaded counter.
-/

/-- Python exception kinds that the program can raise or catch. -/
inductive PyExn where
  | valueError
  | keyError
  | indexError
  | typeError
  | attributeError
  | eofError
  | unboundLocalError
  | unpicklingError
  deriving DecidableEq, Repr

/-- Python `str.isdigit` restricted to ASCII: true iff the text is nonempty
and all characters are decimal digits. -/
def pyIsDigit (l : List Char) : Bool :=
  !l.isEmpty && l.all Char.isDigit

/-- Python `s.startswith(pre)`: the first `len(pre)` characters equal `pre`. -/
def pyStartsWith (l pre : List Char) : Bool :=
  l.take pre.length == pre

/-- The check chain of `Phone.is_valid_phone` on the characters of a
non-`None` value: a falsy (empty) text is valid; otherwise it must start
with `+380`, have length 13, and have only digits after position 4. -/
def is_valid_phone_chars (l : List Char) : Bool :=
  if !l.isEmpty then
    if !pyStartsWith l ("+380".data) then false
    else if l.length != 13 then false
    else if !pyIsDigit (l.drop 4) then false
    else true
  else true

/-- `Phone.is_valid_phone` from the source; an absent (`None`) value is
falsy, hence valid. -/
def is_valid_phone (phone : Option String) : Bool :=
  match phone with
  | none => true
  | some s => is_valid_phone_chars s.data

/-- A `Phone` field object: `oid` models Python object identity (each
`Phone(...)` call allocates a distinct id), `value` is the held string
(`None` is allowed, since `Phone(None)` passes validation). -/
structure Phone where
  oid : Nat
  value : Option String
  deriving DecidableEq, Repr

/-- `str(phone)`: Python renders the held value; `str(None) = "None"`. -/
def Phone.str (p : Phone) : String :=
  match p.value with
  | none => "None"
  | some s => s

/-- `Phone(value)` constructor: raises `ValueError` on invalid text. -/
def mkPhone (oid : Nat) (value : Option String) : Except PyExn Phone :=
  if is_valid_phone value then .ok ⟨oid, value⟩ else .error .valueError

/-- The attributes the `datetime` class exposes that this program could
reach.  The module does `from datetime import datetime`, so the global name
`datetime` is the class itself, and the class has no attribute named
`datetime`; looking it up raises `AttributeError`. -/
def datetimeClassAttrs : List String :=
  ["strptime", "now", "date", "year", "month", "day"]

/-- A calendar date as `datetime.date` holds it. -/
structure PyDate where
  y : Nat
  m : Nat
  d : Nat
  deriving DecidableEq, Repr

/-- Gregorian leap-year rule used by `datetime`. -/
def isLeapYear (y : Nat) : Bool :=
  (y % 4 == 0 && y % 100 != 0) || y % 400 == 0

/-- Length of a month in a given year. -/
def daysInMonth (y m : Nat) : Nat :=
  if m = 2 then (if isLeapYear y then 29 else 28)
  else if m = 4 ∨ m = 6 ∨ m = 9 ∨ m = 11 then 30
  else 31

/-- Numeric value of an ASCII digit character. -/
def chVal (c : Char) : Nat := c.toNat - 48

/-- The `%d` field of CPython `_strptime`: regex `3[01]|[12]\d|0[1-9]|[1-9]`,
ordered alternation (a one- or two-digit day).  Backtracking cannot change
the outcome here because the following format character is a dot, never a
digit. -/
def parseDay : List Char → Option (Nat × List Char)
  | c1 :: c2 :: rest =>
    if c1 = '3' ∧ (c2 = '0' ∨ c2 = '1') then some (chVal c1 * 10 + chVal c2, rest)
    else if (c1 = '1' ∨ c1 = '2') ∧ c2.isDigit then some (chVal c1 * 10 + chVal c2, rest)
    else if c1 = '0' ∧ c2.isDigit ∧ c2 ≠ '0' then some (chVal c2, rest)
    else if c1.isDigit ∧ c1 ≠ '0' then some (chVal c1, c2 :: rest)
    else none
  | [c1] => if c1.isDigit ∧ c1 ≠ '0' then some (chVal c1, []) else none
  | [] => none

/-- The `%m` field of CPython `_strptime`: regex `1[0-2]|0[1-9]|[1-9]`. -/
def parseMonth : List Char → Option (Nat × List Char)
  | c1 :: c2 :: rest =>
    if c1 = '1' ∧ (c2 = '0' ∨ c2 = '1' ∨ c2 = '2') then some (10 + chVal c2, rest)
    else if c1 = '0' ∧ c2.isDigit ∧ c2 ≠ '0' then some (chVal c2, rest)
    else if c1.isDigit ∧ c1 ≠ '0' then some (chVal c1, c2 :: rest)
    else none
  | [c1] => if c1.isDigit ∧ c1 ≠ '0' then some (chVal c1, []) else none
  | [] => none

/-- The `%Y` field of CPython `_strptime`: exactly four digits. -/
def parseYear : List Char → Option (Nat × List Char)
  | a :: b :: c :: d :: rest =>
    if a.isDigit ∧ b.isDigit ∧ c.isDigit ∧ d.isDigit then
      some (chVal a * 1000 + chVal b * 100 + chVal c * 10 + chVal d, rest)
    else none
  | _ => none

/-- `datetime.strptime(text, "%d.%m.%Y").date()`: match the whole string
against day, dot, month, dot, four-digit year ("unconverted data remains"
otherwise), then build the date, which checks the calendar (`ValueError` on
an impossible date or year 0).  `none` stands for the raised `ValueError`. -/
def strptime_dmY (s : List Char) : Option PyDate :=
  match parseDay s with
  | none => none
  | some (d, s₁) =>
    match s₁ with
    | '.' :: s₂ =>
      match parseMonth s₂ with
      | none => none
      | some (m, s₃) =>
        match s₃ with
        | '.' :: s₄ =>
          match parseYear s₄ with
          | none => none
          | some (y, s₅) =>
            if s₅ = [] then
              if 1 ≤ y ∧ 1 ≤ m ∧ m ≤ 12 ∧ 1 ≤ d ∧ d ≤ daysInMonth y m then
                some ⟨y, m, d⟩
              else none
            else none
        | _ => none
    | _ => none

/-- `Birthday.is_valid_date` from the source.  Its body is
`datetime.datetime.strptime(birthday, "%d.%m.%Y")`, but under
`from datetime import datetime` the lookup `datetime.datetime` raises
`AttributeError`, and the `except ValueError:` clause does not catch it, so
the strptime call (modelled in the then-branch) is never reached. -/
def is_valid_date (birthday : String) : Except PyExn Bool :=
  if datetimeClassAttrs.contains "datetime" then
    .ok (strptime_dmY birthday.data).isSome
  else .error .attributeError

/-- `Birthday(value)` constructor: the value setter calls `is_valid_date`,
whose `AttributeError` propagates; were validation reachable, invalid text
would raise `ValueError`. -/
def mkBirthday (value : String) : Except PyExn Unit :=
  match is_valid_date value with
  | .error e => .error e
  | .ok true => .ok ()
  | .ok false => .error .valueError

/-- A `Record`: contact name, ordered phone list, optional birthday. -/
structure Record where
  name : String
  phones : List Phone
  birthday : Option PyDate
  deriving DecidableEq, Repr

/-- `Record.add_phone`: `if phone not in self.phones` — Python `in` falls
back to object identity because `Field` defines no `__eq__`, so membership
compares `oid`s, not string values. -/
def Record.add_phone (r : Record) (phone : Phone) : Record × String :=
  if r.phones.any (fun q => q.oid == phone.oid) then
    (r, Phone.str phone ++ " already added to " ++ r.name)
  else
    ({r with phones := r.phones ++ [phone]},
      "Phone " ++ Phone.str phone ++ " added to contact " ++ r.name)

/-- `Record.remove_phone`: keep the phones whose string value differs. -/
def Record.remove_phone (r : Record) (phone : String) : Record :=
  {r with phones := r.phones.filter (fun p => Phone.str p != phone)}

/-- Replace the first phone whose string value equals `o` by `n`. -/
def changeFirstStr : List Phone → String → Phone → List Phone
  | [], _, _ => []
  | p :: ps, o, n => if Phone.str p == o then n :: ps else p :: changeFirstStr ps o n

/-- `Record.change_phone(old, new)`: replaces the first phone string-equal to
`old` with `new`; no-op when absent. -/
def Record.change_phone (r : Record) (oldP newP : Phone) : Record :=
  {r with phones := changeFirstStr r.phones (Phone.str oldP) newP}

/-- `Record.set_birthday(text)`: `datetime.strptime` (the correct attribute
this time) parses under `%d.%m.%Y`; on success the parsed date is stored, on
`ValueError` the except clause returns a failure message and the stored
birthday is untouched. -/
def Record.set_birthday (r : Record) (birthday : String) : Record × String :=
  match strptime_dmY birthday.data with
  | some dt => ({r with birthday := some dt}, "Birthday set for " ++ r.name)
  | none => (r, "Invalid birthday format. Please use dd.mm.yyyy format.")

/-- `str(record)`. -/
def recStr (r : Record) : String :=
  "Name: " ++ r.name ++ ", Phones: " ++ String.intercalate ", " (r.phones.map Phone.str)

/-- Lexicographic `date <` as Python compares dates. -/
def dateLt (a b : PyDate) : Bool :=
  a.y < b.y || (a.y == b.y && (a.m < b.m || (a.m == b.m && a.d < b.d)))

/-- Leap days in years `1 .. y-1`. -/
def leapsBefore (y : Nat) : Nat :=
  (y - 1) / 4 - (y - 1) / 100 + (y - 1) / 400

/-- Days in the first `m` months of year `y`. -/
def monthsSum (y : Nat) : Nat → Nat
  | 0 => 0
  | m + 1 => monthsSum y m + daysInMonth y (m + 1)

/-- Ordinal of the date inside its year. -/
def dayOfYear (dt : PyDate) : Nat := monthsSum dt.y (dt.m - 1) + dt.d

/-- Proleptic Gregorian day number, so date subtraction is day-count
subtraction. -/
def dateToDays (dt : PyDate) : Nat :=
  365 * (dt.y - 1) + leapsBefore dt.y + dayOfYear dt

/-- `datetime(year, month, day)`: raises `ValueError` on an impossible
calendar date or a year outside `1..9999`. -/
def mkDate (y m d : Nat) : Except PyExn PyDate :=
  if 1 ≤ y ∧ y ≤ 9999 ∧ 1 ≤ m ∧ m ≤ 12 ∧ 1 ≤ d ∧ d ≤ daysInMonth y m then
    .ok ⟨y, m, d⟩
  else .error .valueError

/-- `Record.days_to_birthday` with `datetime.now().date()` passed in as
`today`: builds this year's occurrence of the stored month/day (which can
raise `ValueError`, e.g. Feb 29 in a non-leap year), moves to next year if
already past, and reports the day count. -/
def Record.days_to_birthday (r : Record) (today : PyDate) : Except PyExn String :=
  match r.birthday with
  | none => .ok "Birthday not set"
  | some bd =>
    match mkDate today.y bd.m bd.d with
    | .error e => .error e
    | .ok nb =>
      match (if dateLt nb today then mkDate (today.y + 1) bd.m bd.d else .ok nb) with
      | .error e => .error e
      | .ok nb2 =>
        .ok ("Days to next birthday for " ++ r.name ++ ": "
          ++ toString ((dateToDays nb2 : Int) - (dateToDays today : Int)))

/-- Association-list lookup (first match), modelling `dict` access. -/
def assocGet {α : Type} : List (String × α) → String → Option α
  | [], _ => none
  | (k, v) :: t, key => if k == key then some v else assocGet t key

/-- `dict` assignment: overwrite in place, or append a new key at the end
(Python dicts preserve insertion order and keep the slot on overwrite). -/
def assocSet {α : Type} : List (String × α) → String → α → List (String × α)
  | [], key, v => [(key, v)]
  | (k, v0) :: t, key, v =>
    if k == key then (k, v) :: t else (k, v0) :: assocSet t key v

/-- `del d[key]`. -/
def assocDel {α : Type} : List (String × α) → String → List (String × α)
  | [], _ => []
  | (k, v) :: t, key => if k == key then t else (k, v) :: assocDel t key

/-- The `AddressBook` data: an insertion-ordered mapping name → record. -/
abbrev AddressBook := List (String × Record)

/-- `self.data.values()` in mapping order. -/
def bookValues (b : AddressBook) : List Record := b.map Prod.snd

/-- `AddressBook.add_record`: keyed by `str(record.name)`, last write wins. -/
def AddressBook.add_record (b : AddressBook) (r : Record) : AddressBook :=
  assocSet b r.name r

/-- `AddressBook.search_by_name`: exact, case-sensitive name match. -/
def search_by_name (b : AddressBook) (name : String) : List Record :=
  (bookValues b).filter (fun r => r.name == name)

/-- `AddressBook.change_phone_by_name`: for each record found by name,
replace its first phone (`result.phones[0]`, `IndexError` when empty) by a
freshly constructed `Phone(new_phone)` (`ValueError` when invalid).  Under
the invariant that keys equal record names at most one entry matches, so no
partial mutation is lost on the error paths. -/
def change_phone_by_name (b : AddressBook) (name newPhone : String) (oid : Nat) :
    Except PyExn (AddressBook × Nat) :=
  match b with
  | [] => .ok ([], oid)
  | (k, r) :: t =>
    if r.name == name then
      match r.phones with
      | [] => .error .indexError
      | p0 :: _ =>
        match mkPhone oid (some newPhone) with
        | .error e => .error e
        | .ok newP =>
          let r2 := Record.change_phone r p0 newP
          match change_phone_by_name t name newPhone (oid + 1) with
          | .ok (t2, oid2) => .ok ((k, r2) :: t2, oid2)
          | .error e => .error e
    else
      match change_phone_by_name t name newPhone oid with
      | .ok (t2, oid2) => .ok ((k, r) :: t2, oid2)
      | .error e => .error e

/-- How a Python generator run ends: normal exhaustion (`StopIteration`), an
exception escaping from `next`, or no termination. -/
inductive GenEnd where
  | exhausted
  | raised (e : PyExn)
  | hung
  deriving DecidableEq, Repr

/-- Python slice `l[a:b]` with `int` endpoints (negatives count from the
end, everything is clamped). -/
def pySlice (l : List Record) (a b : Int) : List Record :=
  let len : Int := l.length
  let norm : Int → Nat := fun i => (min (max (if i < 0 then len + i else i) 0) len).toNat
  (l.take (norm b)).drop (norm a)

/-- The `while current_index < total_records` loop of `iterator`, yielding
`records[current_index:current_index+n]` and stepping by `n`.  `fuel` bounds
the modelled run; running out stands for the real loop not terminating
(which happens for `n ≤ 0` on a nonempty book). -/
def iterWhile (records : List Record) (n : Int) : Nat → Int → List (List Record) × GenEnd
  | 0, _ => ([], .hung)
  | fuel + 1, idx =>
    if idx < (records.length : Int) then
      let chunk := pySlice records idx (idx + n)
      let (rest, g) := iterWhile records n fuel (idx + n)
      (chunk :: rest, g)
    else ([], .exhausted)

/-- Full yield trace of `AddressBook.iterator(n)`.  The `while` loop sits at
method-body indentation, outside the `if n is None`/`else`: with `n = None`
the generator yields all records once and then evaluates the loop condition,
whose locals `current_index`/`total_records` were assigned only in the else
branch, so resumption raises `UnboundLocalError`. -/
def iteratorTrace (records : List Record) (n : Option Int) (fuel : Nat) :
    List (List Record) × GenEnd :=
  match n with
  | none => ([records], .raised .unboundLocalError)
  | some k => iterWhile records k fuel 0

/-- Three-valued outcome of running a piece of Python: a value, an escaping
exception, or no termination. -/
inductive POut (α : Type) where
  | ok (a : α)
  | exn (e : PyExn)
  | hang
  deriving DecidableEq, Repr

/-- The `for chunk in iterator` body of `AddressBook.show_all`: print the
chunk joined with newlines, and break after it when `n is None` or the chunk
is short.  The generator's end marker is only reached (and its exception
only raised) when no break fires first. -/
def showAllMethodLoop (n : Option Int) : List (List Record) → GenEnd → List String × POut Unit
  | [], g =>
    ([], match g with
         | .exhausted => .ok ()
         | .raised e => .exn e
         | .hung => .hang)
  | chunk :: rest, g =>
    let line := String.intercalate "\n" (chunk.map recStr)
    if n.isNone ∨ (chunk.length : Int) < n.getD 0 then ([line], .ok ())
    else
      let (ps, out) := showAllMethodLoop n rest g
      (line :: ps, out)

/-- `AddressBook.show_all(n)`: drive the iterator, printing chunks. -/
def bookShowAll (b : AddressBook) (n : Option Int) (fuel : Nat) : List String × POut Unit :=
  let (chunks, g) := iteratorTrace (bookValues b) n fuel
  showAllMethodLoop n chunks g

/-- Tokens of the binary snapshot; the pickle stream format is private, its
only contract being round-trip fidelity with `load`. -/
inductive PTok where
  | nat (k : Nat)
  | str (s : String)
  | pnone
  | psome
  deriving DecidableEq, Repr

/-- Serialize one phone: its string value only.  Unpickling rebuilds fresh
objects, so object ids are not part of the stream (just as Python `id`s are
not preserved by pickle). -/
def encPhone (p : Phone) : List PTok :=
  match p.value with
  | none => [.pnone]
  | some s => [.psome, .str s]

/-- Serialize a phone list. -/
def encPhones : List Phone → List PTok
  | [] => []
  | p :: ps => encPhone p ++ encPhones ps

/-- Serialize an optional birthday. -/
def encOptDate : Option PyDate → List PTok
  | none => [.pnone]
  | some dt => [.psome, .nat dt.y, .nat dt.m, .nat dt.d]

/-- Serialize a record. -/
def encRec (r : Record) : List PTok :=
  .str r.name :: .nat r.phones.length :: (encPhones r.phones ++ encOptDate r.birthday)

/-- Serialize the mapping's entries. -/
def encBook : AddressBook → List PTok
  | [] => []
  | (k, r) :: t => .str k :: (encRec r ++ encBook t)

/-- `pickle.dump(self.data, f)`: the serialized mapping. -/
def pickleDump (b : AddressBook) : List PTok :=
  .nat b.length :: encBook b

/-- Deserialize one phone, allocating a fresh object id. -/
def decPhone (oid : Nat) : List PTok → Option (Phone × List PTok)
  | .pnone :: ts => some (⟨oid, none⟩, ts)
  | .psome :: .str s :: ts => some (⟨oid, some s⟩, ts)
  | _ => none

/-- Deserialize `k` phones. -/
def decPhones (oid : Nat) : Nat → List PTok → Option (List Phone × Nat × List PTok)
  | 0, ts => some ([], oid, ts)
  | k + 1, ts =>
    match decPhone oid ts with
    | none => none
    | some (p, ts₁) =>
      match decPhones (oid + 1) k ts₁ with
      | none => none
      | some (ps, oid₂, ts₂) => some (p :: ps, oid₂, ts₂)

/-- Deserialize an optional birthday. -/
def decOptDate : List PTok → Option (Option PyDate × List PTok)
  | .pnone :: ts => some (none, ts)
  | .psome :: .nat y :: .nat m :: .nat d :: ts => some (some ⟨y, m, d⟩, ts)
  | _ => none

/-- Deserialize a record. -/
def decRec (oid : Nat) (ts : List PTok) : Option (Record × Nat × List PTok) :=
  match ts with
  | .str name :: .nat k :: ts₁ =>
    match decPhones oid k ts₁ with
    | none => none
    | some (ps, oid₁, ts₂) =>
      match decOptDate ts₂ with
      | none => none
      | some (bd, ts₃) => some (⟨name, ps, bd⟩, oid₁, ts₃)
  | _ => none

/-- Deserialize `n` mapping entries. -/
def decEntries (oid : Nat) : Nat → List PTok → Option (AddressBook × Nat × List PTok)
  | 0, ts => some ([], oid, ts)
  | n + 1, ts =>
    match ts with
    | .str key :: ts₁ =>
      match decRec oid ts₁ with
      | none => none
      | some (r, oid₁, ts₂) =>
        match decEntries oid₁ n ts₂ with
        | none => none
        | some (b, oid₂, ts₃) => some ((key, r) :: b, oid₂, ts₃)
    | _ => none

/-- `pickle.load(f)`: read one mapping object from the stream, allocating
fresh object ids from `oid`. -/
def pickleLoad (ts : List PTok) (oid : Nat) : Option (AddressBook × Nat) :=
  match ts with
  | .nat n :: ts₁ =>
    match decEntries oid n ts₁ with
    | none => none
    | some (b, oid₂, _) => some (b, oid₂)
  | _ => none

/-- The binary files on disk: path → pickled bytes. -/
abbrev BinFS := List (String × List PTok)

/-- `AddressBook.save(file)`: write the pickled mapping at the path. -/
def AddressBook.save (fs : BinFS) (file : String) (b : AddressBook) : BinFS :=
  assocSet fs file (pickleDump b)

/-- `AddressBook.load(file)`: a missing path is a caught
`FileNotFoundError`, leaving `data = {}`; otherwise unpickle (a corrupt
stream would raise out of `load`, which catches only `FileNotFoundError`). -/
def AddressBook.load (fs : BinFS) (file : String) (oid : Nat) :
    Except PyExn (AddressBook × Nat) :=
  match assocGet fs file with
  | none => .ok ([], oid)
  | some bytes =>
    match pickleLoad bytes oid with
    | none => .error .unpicklingError
    | some (b, oid₂) => .ok (b, oid₂)

/-- `AddressBook.save_csv(file)`: `writer.writerow(self.data)` iterates the
dict, so the file holds a single row containing only the keys (the contact
names); phones and birthdays are never written. -/
def save_csv (b : AddressBook) : List (List String) :=
  [b.map Prod.fst]

/-- ASCII `str.lower`. -/
def pyToLower (s : String) : String := String.mk (s.data.map Char.toLower)

/-- Does `hay` start with `needle` (character lists)? -/
def listStartsWith : List Char → List Char → Bool
  | _, [] => true
  | [], _ :: _ => false
  | c :: cs, d :: ds => c == d && listStartsWith cs ds

/-- Python `needle in hay` substring test. -/
def listHasInfix (needle : List Char) : List Char → Bool
  | [] => listStartsWith [] needle
  | c :: t => listStartsWith (c :: t) needle || listHasInfix needle t

/-- Python `needle in hay` on strings. -/
def pyIn (needle hay : String) : Bool := listHasInfix needle.data hay.data

/-- One record's additions inside `AddressBook.search`: a name match appends
the record once and skips the phones (the `else` branch); otherwise the
record is appended once per matching phone. -/
def searchContribution (q : String) (r : Record) : List Record :=
  if pyIn q (pyToLower r.name) then [r]
  else (r.phones.filter (fun p => pyIn q (pyToLower (Phone.str p)))).map (fun _ => r)

/-- The record loop of `AddressBook.search` over a value list. -/
def searchList (q : String) : List Record → List Record
  | [] => []
  | r :: rs => searchContribution q r ++ searchList q rs

/-- `AddressBook.search(query)`: lower-case the query once, then scan. -/
def AddressBook.search (b : AddressBook) (query : String) : List Record :=
  searchList (pyToLower query) (bookValues b)

/-- The static text returned by `help()`. -/
def helpText : String :=
  "Available commands:\n- hello\n- add [name] [phone in format +380xxxxxxx]\n- change [name] [phone]\n- find [name]\n- show_all\n- show\n- birthday [name] [date in format dd.mm.yyyy]\n- days_to_bd [name]\n- help \n- del [name] \n- search [string] (>3 symbols) \n- bye, close, exit"

/-- The `input_error` decorator: `KeyError` → "contact not found",
`ValueError` → "invalid format, type help", `IndexError` → "Invalid input",
any other `Exception` → the help text. -/
def input_error (r : POut String) : POut String :=
  match r with
  | .exn .keyError => .ok "contact not found"
  | .exn .valueError => .ok "invalid format, type help"
  | .exn .indexError => .ok "Invalid input"
  | .exn _ => .ok helpText
  | other => other

/-- The distinct handler functions of the command layer. -/
inductive Cmd where
  | hello
  | add
  | change
  | find
  | show_all
  | help
  | close
  | birthday
  | days_to_bd
  | search
  | del
  | no_command
  deriving DecidableEq, Repr

/-- The `commands` dispatch table, in source order. -/
def commandTable : List (String × Cmd) :=
  [("hello", .hello), ("hi", .hello), ("add", .add), ("+", .add),
   ("change", .change), ("find", .find), ("show_all", .show_all),
   ("show", .show_all), ("help", .help), ("bye", .close), ("close", .close),
   ("exit", .close), ("birthday", .birthday), ("days_to_bd", .days_to_bd),
   ("search", .search), ("del", .del)]

/-- Lookup in the dispatch table. -/
def cmdLookup : List (String × Cmd) → String → Option Cmd
  | [], _ => none
  | (k, c) :: t, w => if k == w then some c else cmdLookup t w

/-- `str.split()` helper: accumulate a word. -/
def pySplitAux : List Char → List Char → List String
  | [], acc => if acc.isEmpty then [] else [String.mk acc.reverse]
  | c :: rest, acc =>
    if c.isWhitespace then
      if acc.isEmpty then pySplitAux rest []
      else String.mk acc.reverse :: pySplitAux rest []
    else pySplitAux rest (c :: acc)

/-- Python `text.split()`: split on whitespace runs, dropping empties. -/
def pyWords (s : String) : List String := pySplitAux s.data []

/-- What the wrapped `parser` returns to `main`: a (handler, args) pair, or
— via `input_error` when `words[0]` raises `IndexError` on blank input — the
plain string "Invalid input". -/
inductive ParseOut where
  | pair (c : Cmd) (args : List String)
  | strResult (s : String)
  deriving DecidableEq, Repr

/-- `parser(text)`: lower-case, split, look the first word up in the table;
unknown words map to `no_command` with empty args.  The whole function is
wrapped by `input_error`, so blank input yields the string "Invalid input"
instead of a pair. -/
def parseCommand (text : String) : ParseOut :=
  match pyWords (pyToLower text) with
  | [] => .strResult "Invalid input"
  | w :: rest =>
    match cmdLookup commandTable w with
    | some c => .pair c rest
    | none => .pair .no_command []

/-- Python `int(str)`: optional surrounding whitespace and sign, then at
least one digit, else `ValueError` (underscore grouping is not modelled). -/
def pyInt (s : String) : Except PyExn Int :=
  let t := (s.data.dropWhile Char.isWhitespace).reverse.dropWhile Char.isWhitespace |>.reverse
  let core : List Char → Option Nat := fun ds =>
    if pyIsDigit ds then some (ds.foldl (fun a c => a * 10 + chVal c) 0) else none
  match t with
  | '-' :: ds => match core ds with
                 | some v => .ok (-(v : Int))
                 | none => .error .valueError
  | '+' :: ds => match core ds with
                 | some v => .ok (v : Int)
                 | none => .error .valueError
  | ds => match core ds with
          | some v => .ok (v : Int)
          | none => .error .valueError

/-- The process-wide mutable state the handlers touch: the address book and
the object-identity counter for freshly constructed field objects. -/
structure St where
  book : AddressBook
  nextOid : Nat
  deriving DecidableEq, Repr

/-- `hello()` takes no arguments; extra ones are a `TypeError`. -/
def helloBody (args : List String) : POut String :=
  if args.isEmpty then .ok "How can I help you?" else .exn .typeError

/-- `close()` takes no arguments. -/
def closeBody (args : List String) : POut String :=
  if args.isEmpty then .ok "Good bye!" else .exn .typeError

/-- `help()` (not wrapped by `input_error`) takes no arguments. -/
def helpBody (args : List String) : POut String :=
  if args.isEmpty then .ok helpText else .exn .typeError

/-- The static reply of `no_command`. -/
def noCommandMsg : String :=
  " - not valid command entered\n - type \x27help\x27 for commands"

/-- The body of `add` once arguments are bound.  When the name already has a
record, the handler reads `record.phone` — `Record` objects only define
`phones`, so the lookup raises `AttributeError`, which the handler's
`except ValueError` does not catch.  Otherwise `Phone(phone)` may raise the
caught `ValueError` (returned as its message), a truthy `birthday` argument
constructs `Birthday(...)`, whose validator raises `AttributeError`
(uncaught), and finally the record is created and inserted. -/
def addCore (st : St) (name : String) (phone birthday : Option String) : St × POut String :=
  match assocGet st.book name with
  | some _ => (st, .exn .attributeError)
  | none =>
    if is_valid_phone phone then
      let withBirthday : Bool := match birthday with
                                 | some b => !b.isEmpty
                                 | none => false
      if withBirthday then (st, .exn .attributeError)
      else
        let r := (Record.add_phone ⟨name, [], none⟩ ⟨st.nextOid, phone⟩).1
        (⟨AddressBook.add_record st.book r, st.nextOid + 1⟩,
          .ok ("Contact " ++ name ++ " add success"))
    else (st, .ok "Invalid phone number format")

/-- `add(name, phone=None, birthday=None)`: one to three positional
arguments, otherwise `TypeError` (uncaught — `add` is not wrapped). -/
def addBody (args : List String) (st : St) : St × POut String :=
  match args with
  | [name] => addCore st name none none
  | [name, phone] => addCore st name (some phone) none
  | [name, phone, birthday] => addCore st name (some phone) (some birthday)
  | _ => (st, .exn .typeError)

/-- `change(name, new_phone)`. -/
def changeBody (args : List String) (st : St) : St × POut String :=
  match args with
  | [name, newPhone] =>
    match assocGet st.book name with
    | some _ =>
      match change_phone_by_name st.book name newPhone st.nextOid with
      | .ok (b2, oid2) => (⟨b2, oid2⟩, .ok ("phone number for " ++ name ++ " updated"))
      | .error e => (st, .exn e)
    | none => (st, .ok ("no " ++ name ++ " in contacts"))
  | _ => (st, .exn .typeError)

/-- `find(name)`: raises `KeyError` when nothing matches. -/
def findBody (args : List String) (st : St) : POut String :=
  match args with
  | [name] =>
    match search_by_name st.book name with
    | r :: _ => .ok (recStr r)
    | [] => .exn .keyError
  | _ => .exn .typeError

/-- `birthday name date` → `set_birthday` handler. -/
def birthdayBody (args : List String) (st : St) : St × POut String :=
  match args with
  | [name, bd] =>
    match assocGet st.book name with
    | some r =>
      let (r2, msg) := Record.set_birthday r bd
      (⟨assocSet st.book name r2, st.nextOid⟩, .ok msg)
    | none => (st, .ok ("No " ++ name ++ " in contacts"))
  | _ => (st, .exn .typeError)

/-- `days_to_bd name` handler. -/
def daysBody (today : PyDate) (args : List String) (st : St) : POut String :=
  match args with
  | [name] =>
    match assocGet st.book name with
    | some r =>
      match Record.days_to_birthday r today with
      | .ok s => .ok s
      | .error e => .exn e
    | none => .ok ("No " ++ name ++ " in contacts")
  | _ => .exn .typeError

/-- `search(*args)`: requires exactly one argument of at least 3 characters,
otherwise a guidance message. -/
def searchBody (args : List String) (st : St) : POut String :=
  match args with
  | [q] =>
    if q.length ≥ 3 then
      match AddressBook.search st.book q with
      | [] => .ok "No result found by your search"
      | rs => .ok (String.intercalate "\n" (rs.map recStr))
    else .ok "Invalid search, try 3 symbols or more after search command"
  | _ => .ok "Invalid search, try 3 symbols or more after search command"

/-- `del name` → `remove` handler. -/
def delBody (args : List String) (st : St) : St × POut String :=
  match args with
  | [name] =>
    match assocGet st.book name with
    | some _ => (⟨assocDel st.book name, st.nextOid⟩, .ok (name ++ " record deleted"))
    | none => (st, .ok ("No " ++ name ++ " in contacts"))
  | _ => (st, .exn .typeError)

/-- The pagination loop of the `show_all` handler: print each record of the
chunk, then `input(...)` a line from stdin (`EOFError` when exhausted);
answering `q` (case-insensitively) breaks.  The generator's end marker is
only consulted when the chunk list runs out without a break. -/
def showAllPaged : List (List Record) → GenEnd → List String →
    List String × List String × POut Unit
  | [], g, stdin =>
    ([], stdin, match g with
                | .exhausted => .ok ()
                | .raised e => .exn e
                | .hung => .hang)
  | chunk :: rest, g, stdin =>
    let prints := chunk.map recStr
    match stdin with
    | [] => (prints, [], .exn .eofError)
    | choice :: stdin₁ =>
      if pyToLower choice == "q" then (prints, stdin₁, .ok ())
      else
        let (ps, sd, out) := showAllPaged rest g stdin₁
        (prints ++ ps, sd, out)

/-- Map a unit outcome to the handler result string (an empty one). -/
def unitToEmpty : POut Unit → POut String
  | .ok _ => .ok ""
  | .exn e => .exn e
  | .hang => .hang

/-- `show_all(*args)` handler: with an argument, `int(args[0])` (a possible
caught `ValueError`), then the paged loop over `ab.iterator(n)`; with no
argument, `ab.show_all()`.  The fuel passed to the modelled while loop
exceeds both the record count and the available stdin, so it only runs out
where the Python loop really diverges. -/
def showAllBody (args : List String) (st : St) (stdin : List String) :
    List String × List String × POut String :=
  match args with
  | [] =>
    let (prints, out) := bookShowAll st.book none 1
    (prints, stdin, unitToEmpty out)
  | a :: _ =>
    match pyInt a with
    | .error e => ([], stdin, .exn e)
    | .ok n =>
      let vals := bookValues st.book
      let (chunks, g) := iterWhile vals n (vals.length + stdin.length + 1) 0
      let (prints, stdin₁, out) := showAllPaged chunks g stdin
      (prints, stdin₁, unitToEmpty out)

/-- Dispatch one parsed command the way `main` does: run the handler bound
to it on the current state and stdin.  The wrapped handlers go through
`input_error`; `add` and `help` are not wrapped.  Returns (lines the handler
itself printed, remaining stdin, new state, handler outcome). -/
def runHandler (today : PyDate) (c : Cmd) (args : List String) (st : St)
    (stdin : List String) : List String × List String × St × POut String :=
  match c with
  | .hello => ([], stdin, st, input_error (helloBody args))
  | .add =>
    let (st2, out) := addBody args st
    ([], stdin, st2, out)
  | .change =>
    let (st2, out) := changeBody args st
    ([], stdin, st2, input_error out)
  | .find => ([], stdin, st, input_error (findBody args st))
  | .show_all =>
    let (prints, stdin₁, out) := showAllBody args st stdin
    (prints, stdin₁, st, input_error out)
  | .help => ([], stdin, st, helpBody args)
  | .close => ([], stdin, st, input_error (closeBody args))
  | .birthday =>
    let (st2, out) := birthdayBody args st
    ([], stdin, st2, input_error out)
  | .days_to_bd => ([], stdin, st, input_error (daysBody today args st))
  | .search => ([], stdin, st, input_error (searchBody args st))
  | .del =>
    let (st2, out) := delBody args st
    ([], stdin, st2, input_error out)
  | .no_command => ([], stdin, st, input_error (.ok noCommandMsg))

/-- The CSV files on disk: path → rows. -/
abbrev CsvFS := List (String × List (List String))

/-- How `main` ends: the exit-command branch (save, then break), the outer
`except Exception` branch (print the literal "Error \x7be\x7d" — the source
forgot the f-string prefix — and return), or the model's fuel bound. -/
inductive MainEnd where
  | exitCommand
  | caughtException
  | fuelOut
  deriving DecidableEq, Repr

/-- The `while True` loop of `main`: read a line (`EOFError` Escapes to the
outer handler when stdin ends), parse, compare the handler against `close`
by identity before calling (on a match: save the binary snapshot and the CSV
export, break), otherwise dispatch and print the result.  The enclosing
`try ... except Exception` sits OUTSIDE the loop, so any exception escaping
a handler (or the tuple unpacking of a string returned by the wrapped
parser) prints the error line and leaves the loop for good. -/
def mainLoop (today : PyDate) : Nat → St → BinFS → CsvFS → List String → List String →
    BinFS × CsvFS × List String × MainEnd × List String
  | 0, _, bfs, cfs, outs, stdin => (bfs, cfs, outs, .fuelOut, stdin)
  | _ + 1, _, bfs, cfs, outs, [] =>
    (bfs, cfs, outs ++ ["Error \x7be\x7d"], .caughtException, [])
  | fuel + 1, st, bfs, cfs, outs, line :: stdin =>
    match parseCommand line with
    | .strResult _ => (bfs, cfs, outs ++ ["Error \x7be\x7d"], .caughtException, stdin)
    | .pair c args =>
      if c = .close then
        (AddressBook.save bfs "ab.bin" st.book, assocSet cfs "ab.csv" (save_csv st.book),
          outs, .exitCommand, stdin)
      else
        let (prints, stdin₁, st₁, out) := runHandler today c args st stdin
        match out with
        | .ok result => mainLoop today fuel st₁ bfs cfs (outs ++ prints ++ [result]) stdin₁
        | .exn _ => (bfs, cfs, outs ++ prints ++ ["Error \x7be\x7d"], .caughtException, stdin₁)
        | .hang => (bfs, cfs, outs ++ prints, .fuelOut, stdin₁)

/-- `main()`: load `ab.bin` (a missing file is handled inside `load`, so the
inner `except FileNotFoundError` print is unreachable), then run the loop.
A failure of `load` itself lands in the outer `except Exception`.  The loop
fuel exceeds the stdin length, and every iteration consumes at least one
line, so `fuelOut` is unreachable from here. -/
def pyMain (today : PyDate) (bfs : BinFS) (cfs : CsvFS) (stdin : List String) :
    BinFS × CsvFS × List String × MainEnd × List String :=
  match AddressBook.load bfs "ab.bin" 0 with
  | .ok (book, oid) => mainLoop today (stdin.length + 1) ⟨book, oid⟩ bfs cfs [] stdin
  | .error _ => (bfs, cfs, ["Error \x7be\x7d"], .caughtException, stdin)

/-- Occurrence count of a record in a list. -/
def countRec (r : Record) : List Record → Nat
  | [] => 0
  | x :: t => (if x = r then 1 else 0) + countRec r t

/-- The specification's matching predicate for `search`: the lower-cased
query is a substring of the record's lower-cased name or of one of its
phone values. -/
def searchSpecMatch (query : String) (r : Record) : Bool :=
  pyIn (pyToLower query) (pyToLower r.name)
    || r.phones.any (fun p => pyIn (pyToLower query) (pyToLower (Phone.str p)))

/-- The specification's strict `dd.mm.yyyy` shape: exactly a 2-digit day, a
dot, a 2-digit month, a dot and a 4-digit year, all numeric. -/
def ddmmyyyyStrict (s : String) : Bool :=
  match s.data with
  | [d1, d2, '.', m1, m2, '.', y1, y2, y3, y4] =>
    d1.isDigit && d2.isDigit && m1.isDigit && m2.isDigit
      && y1.isDigit && y2.isDigit && y3.isDigit && y4.isDigit
  | _ => false

/-- The ASCII digit character for `n ≤ 9`. -/
def digitChar (n : Nat) : Char :=
  (['0', '1', '2', '3', '4', '5', '6', '7', '8', '9']).getD n '0'

/-- Zero-padded two-digit rendering. -/
def pad2 (n : Nat) : List Char := [digitChar (n / 10), digitChar (n % 10)]

/-- Zero-padded four-digit rendering. -/
def pad4 (n : Nat) : List Char :=
  [digitChar (n / 1000), digitChar (n / 100 % 10), digitChar (n / 10 % 10), digitChar (n % 10)]

/-- The strictly formatted `dd.mm.yyyy` text for a date. -/
def renderDate (d m y : Nat) : String :=
  String.mk (pad2 d ++ '.' :: (pad2 m ++ '.' :: pad4 y))

/-- The observable content of a record: name, phone string values in order,
birthday — everything except object identities. -/
def recObs (r : Record) : String × List (Option String) × Option PyDate :=
  (r.name, r.phones.map Phone.value, r.birthday)

/-- The observable content of a whole book: keys in order with each
record's observable content. -/
def bookObs (b : AddressBook) : List (String × String × List (Option String) × Option PyDate) :=
  b.map (fun e => (e.1, recObs e.2))

/-- Five concrete records for exercising the iterator. -/
def recsFive : List Record :=
  [⟨"a", [⟨0, some "+380000000001"⟩], none⟩,
   ⟨"b", [⟨1, some "+380000000002"⟩], none⟩,
   ⟨"c", [⟨2, some "+380000000003"⟩], none⟩,
   ⟨"d", [⟨3, some "+380000000004"⟩], none⟩,
   ⟨"e", [⟨4, some "+380000000005"⟩], none⟩]

/-- A one-contact book with a phone and a birthday, for the CSV export. -/
def csvBook : AddressBook :=
  [("Ann", ⟨"Ann", [⟨0, some "+380991234567"⟩], some ⟨2000, 1, 15⟩⟩)]

/-- A state whose book already has a record under "john". -/
def stJohn : St :=
  ⟨[("john", ⟨"john", [⟨0, some "+380991234567"⟩], none⟩)], 1⟩

/-- A two-contact book for exercising `search`. -/
def searchBook : AddressBook :=
  [("Ann", ⟨"Ann", [⟨0, some "+380991234567"⟩], none⟩),
   ("Bob", ⟨"Bob", [⟨1, some "+380501112233"⟩], none⟩)]

/-- An arbitrary current date for runs that never consult it. -/
def someToday : PyDate := ⟨2024, 1, 1⟩

/-- C2: claimed: adding the same phone value twice via `add_phone` leaves
exactly one occurrence.  Evaluating the code: two `Phone` objects carrying
the same string "+380991234567" are both appended (membership is object
identity), the list ends with two occurrences of the value, and the second
call even returns the "added" message. -/
theorem C2_add_phone_duplicate_eval :
    ((Record.add_phone ((Record.add_phone ⟨"ann", [], none⟩ ⟨0, some "+380991234567"⟩).1)
        ⟨1, some "+380991234567"⟩).1).phones.map Phone.value
      = [some "+380991234567", some "+380991234567"]
    ∧ (Record.add_phone ((Record.add_phone ⟨"ann", [], none⟩ ⟨0, some "+380991234567"⟩).1)
        ⟨1, some "+380991234567"⟩).2
      = "Phone +380991234567 added to contact ann" := by
  decide

/-- C3: claimed: `iterator(2)` over five records yields chunks of sizes
[2,2,1] and `iterator(None)` yields one chunk with all records and is then
exhausted with no failure.  Evaluating the code: the chunk sizes are indeed
[2,2,1] in order, but the `None` run yields the single full chunk and then
raises `UnboundLocalError` on resumption (the `while` loop sits outside the
`if`/`else`, reading locals assigned only in the `else` branch). -/
theorem C3_iterator_eval :
    (iteratorTrace recsFive (some 2) 6).1.map List.length = [2, 2, 1]
    ∧ (iteratorTrace recsFive (some 2) 6).1
        = [recsFive.take 2, (recsFive.drop 2).take 2, recsFive.drop 4]
    ∧ (iteratorTrace recsFive (some 2) 6).2 = GenEnd.exhausted
    ∧ iteratorTrace recsFive none 6 = ([recsFive], .raised .unboundLocalError) := by
  decide

/-- C4: claimed: `Birthday.validate` returns a boolean without crashing,
with "29.02.2024" true.  Evaluating the code: `datetime.datetime` does not
exist under `from datetime import datetime`, so `is_valid_date` raises
`AttributeError` on "29.02.2024" — and on every other input — instead of
returning a boolean. -/
theorem C4_is_valid_date_always_raises :
    is_valid_date "29.02.2024" = .error .attributeError
    ∧ ∀ s : String, is_valid_date s = .error .attributeError := by
  exact ⟨rfl, fun _ => rfl⟩

/-- C5: claimed: `save_csv` writes each contact's name, phones and birthday.
Evaluating the code on a book whose single record has the phone
"+380991234567" and the birthday 15.01.2000: `writer.writerow(self.data)`
iterates the dict, so the file is one row holding only the key "Ann"; no
cell contains the phone value or any part of the birthday. -/
theorem C5_save_csv_names_only :
    save_csv csvBook = [["Ann"]]
    ∧ ∀ row ∈ save_csv csvBook, ∀ cell ∈ row,
        pyIn "+380991234567" cell = false ∧ pyIn "15" cell = false := by
  decide

/-- C10: when the book already has a record under `name`, the dispatched add
handler reads the nonexistent attribute `record.phone` and raises
`AttributeError` before producing any status string; since `add` is not
wrapped by `input_error` and its own `try` catches only `ValueError`, the
exception leaves the handler unconverted. -/
theorem C10_add_raises_attribute_error (today : PyDate) (st : St) (name phone : String)
    (stdin : List String) (r : Record)
    (hrec : assocGet st.book name = some r) (_hph : phone ≠ "") :
    runHandler today .add [name, phone] st stdin = ([], stdin, st, .exn .attributeError) := by
  simp [runHandler, addBody, addCore, hrec]

/-- C10 witness: the add handler on the concrete state that already holds
"john" raises `AttributeError`. -/
theorem C10_add_raises_attribute_error_witness :
    runHandler someToday .add ["john", "+380991234568"] stJohn []
      = ([], [], stJohn, .exn .attributeError) :=
  C10_add_raises_attribute_error someToday stJohn "john" "+380991234568" []
    ⟨"john", [⟨0, some "+380991234567"⟩], none⟩ (by decide) (by decide)

/-- C6 counterexample: claimed: after a dispatched handler raises, the loop
continues reading further input.  In this concrete run the second `add`
raises `AttributeError`; `main` prints the error line and returns, so the
third input line "hello" is never read (it remains in the leftover stdin)
and no further prompt output is produced. -/
theorem C6_loop_does_not_continue_counterexample :
    pyMain someToday [] [] ["add john +380991234567", "add john +380991234568", "hello"]
      = ([], [], ["Contact john add success", "Error \x7be\x7d"], .caughtException, ["hello"]) := by
  decide

/-- C6 (amended): when the dispatched handler raises, the failure is caught
at the top level and reported ("Error \x7be\x7d" is printed), but `main`
then returns: the loop terminates and the remaining input is left unread. -/
theorem C6_loop_exits_on_handler_exception (today : PyDate) (fuel : Nat) (st st₁ : St)
    (bfs : BinFS) (cfs : CsvFS) (outs stdin stdin₁ prints : List String)
    (line : String) (c : Cmd) (args : List String) (e : PyExn)
    (hparse : parseCommand line = .pair c args) (hnotclose : c ≠ .close)
    (hrun : runHandler today c args st stdin = (prints, stdin₁, st₁, .exn e)) :
    mainLoop today (fuel + 1) st bfs cfs outs (line :: stdin)
      = (bfs, cfs, outs ++ prints ++ ["Error \x7be\x7d"], .caughtException, stdin₁) := by
  simp [mainLoop, hparse, hnotclose, hrun]

/-- C6 witness: one concrete loop step whose handler raises ends the loop
with the reported error and the handler's leftover stdin. -/
theorem C6_loop_exits_witness :
    mainLoop someToday 1 stJohn [] [] [] ["add john +380991234568"]
      = ([], [], ["Error \x7be\x7d"], .caughtException, []) :=
  C6_loop_exits_on_handler_exception someToday 0 stJohn stJohn [] [] [] [] [] []
    "add john +380991234568" .add ["john", "+380991234568"] .attributeError
    (by decide) (by decide) (by decide)

/-- `startswith` succeeds exactly on extensions of the prefix. -/
theorem pyStartsWith_iff (l pre : List Char) :
    pyStartsWith l pre = true ↔ ∃ t, l = pre ++ t := by
  rw [pyStartsWith, beq_iff_eq]
  constructor
  · intro h
    refine ⟨l.drop pre.length, ?_⟩
    conv_lhs => rw [← List.take_append_drop pre.length l]
    rw [h]
  · rintro ⟨t, rfl⟩
    exact List.take_left pre t

/-- The character-level phone check, unfolded branch by branch. -/
theorem is_valid_phone_chars_cases (l : List Char) :
    is_valid_phone_chars l = true
      ↔ l = [] ∨ (pyStartsWith l ("+380".data) = true ∧ l.length = 13
          ∧ pyIsDigit (l.drop 4) = true) := by
  rw [is_valid_phone_chars]
  by_cases he : l = []
  · subst he
    simp
  · have hie : l.isEmpty = false := by
      cases l with
      | nil => exact absurd rfl he
      | cons a t => rfl
    by_cases hp : pyStartsWith l ("+380".data) = true
    · by_cases hlen : l.length = 13
      · by_cases hdig : pyIsDigit (l.drop 4) = true
        · simp [hie, hp, hlen, hdig, he]
        · simp [hie, hp, hlen, Bool.eq_false_iff.2 hdig, he]
      · simp [hie, hp, hlen, he, bne_iff_ne]
    · simp [hie, Bool.eq_false_iff.2 hp, he, hp]

/-- The three branch conditions describe exactly the strings `+380` plus
nine digits. -/
theorem phone_shape_iff (l : List Char) :
    (pyStartsWith l ("+380".data) = true ∧ l.length = 13 ∧ pyIsDigit (l.drop 4) = true)
      ↔ ∃ t, l = ("+380".data) ++ t ∧ t.length = 9 ∧ t.all Char.isDigit = true := by
  have hplen : ("+380".data).length = 4 := rfl
  constructor
  · rintro ⟨hp, hlen, hdig⟩
    obtain ⟨t, rfl⟩ := (pyStartsWith_iff l _).1 hp
    refine ⟨t, rfl, ?_, ?_⟩
    · have := List.length_append ("+380".data) t
      rw [hplen] at this
      omega
    · have hdrop : (("+380".data) ++ t).drop 4 = t := by
        rw [← hplen]
        exact List.drop_left _ t
      rw [hdrop] at hdig
      rw [pyIsDigit, Bool.and_eq_true] at hdig
      exact hdig.2
  · rintro ⟨t, rfl, hlen, hall⟩
    refine ⟨(pyStartsWith_iff _ _).2 ⟨t, rfl⟩, ?_, ?_⟩
    · rw [List.length_append, hplen, hlen]
    · have hdrop : (("+380".data) ++ t).drop 4 = t := by
        rw [← hplen]
        exact List.drop_left _ t
      rw [hdrop, pyIsDigit]
      have htne : t.isEmpty = false := by
        cases t with
        | nil => simp at hlen
        | cons a t₂ => rfl
      rw [htne, hall]
      rfl


/-- C7: `Phone.is_valid_phone` returns true exactly on the empty string and
on strings made of the literal prefix `+380` followed by nine decimal
digits (total length 13); every other non-empty string is rejected. -/
theorem C7_phone_validate_spec (s : String) :
    is_valid_phone (some s) = true
      ↔ s = "" ∨ ∃ t : List Char,
          s.data = ("+380".data) ++ t ∧ t.length = 9 ∧ t.all Char.isDigit = true := by
  have hemp : s = "" ↔ s.data = [] := by
    constructor
    · rintro rfl
      rfl
    · intro h
      cases s with
      | mk data =>
        have hd : data = [] := h
        rw [hd]
  rw [hemp]
  show is_valid_phone_chars s.data = true ↔ _
  rw [is_valid_phone_chars_cases]
  rw [phone_shape_iff]

/-- A record's contribution to the search result consists of copies of that
record, present exactly when its name or one of its phones matches. -/
theorem mem_searchContribution (q : String) (r₀ x : Record) :
    x ∈ searchContribution q r₀
      ↔ x = r₀ ∧ (pyIn q (pyToLower r₀.name)
          || r₀.phones.any (fun p => pyIn q (pyToLower (Phone.str p)))) = true := by
  rw [searchContribution]
  by_cases hn : pyIn q (pyToLower r₀.name) = true
  · simp [hn]
  · rw [if_neg (fun hc => hn hc)]
    rw [Bool.eq_false_iff.2 hn]
    simp only [Bool.false_or, List.mem_map, List.mem_filter, List.any_eq_true]
    constructor
    · rintro ⟨p, ⟨hp, hmatch⟩, rfl⟩
      exact ⟨rfl, p, hp, hmatch⟩
    · rintro ⟨rfl, p, hp, hmatch⟩
      exact ⟨p, ⟨hp, hmatch⟩, rfl⟩

/-- Membership in the search result: exactly the scanned records whose name
or phones match. -/
theorem mem_searchList (q : String) (rs : List Record) (x : Record) :
    x ∈ searchList q rs
      ↔ x ∈ rs ∧ (pyIn q (pyToLower x.name)
          || x.phones.any (fun p => pyIn q (pyToLower (Phone.str p)))) = true := by
  induction rs with
  | nil => simp [searchList]
  | cons r₀ t ih =>
    rw [searchList, List.mem_append, mem_searchContribution, ih]
    constructor
    · rintro (⟨rfl, h⟩ | ⟨hm, h⟩)
      · exact ⟨List.mem_cons_self _ _, h⟩
      · exact ⟨List.mem_cons_of_mem _ hm, h⟩
    · rintro ⟨hm, h⟩
      rcases List.mem_cons.1 hm with rfl | hm₂
      · exact Or.inl ⟨rfl, h⟩
      · exact Or.inr ⟨hm₂, h⟩

/-- Occurrence counts add over list append. -/
theorem countRec_append (r : Record) (a b : List Record) :
    countRec r (a ++ b) = countRec r a + countRec r b := by
  induction a with
  | nil => simp [countRec]
  | cons x t ih =>
    rw [List.cons_append, countRec, ih, countRec]
    omega

/-- A record absent from a list is counted zero times. -/
theorem countRec_eq_zero (r : Record) (l : List Record) (h : ∀ x ∈ l, x ≠ r) :
    countRec r l = 0 := by
  induction l with
  | nil => rfl
  | cons x t ih =>
    rw [countRec, if_neg (h x (List.mem_cons_self x t)),
      ih (fun y hy => h y (List.mem_cons_of_mem x hy))]

/-- Over a duplicate-free scan, a record whose name matches appears exactly
once in the search result: the name branch appends it once and skips the
phone loop. -/
theorem countRec_searchList_name_match (q : String) (rs : List Record) (r : Record)
    (hnd : rs.Nodup) (hr : r ∈ rs) (hname : pyIn q (pyToLower r.name) = true) :
    countRec r (searchList q rs) = 1 := by
  induction rs with
  | nil => cases hr
  | cons x t ih =>
    rw [searchList, countRec_append]
    rcases List.mem_cons.1 hr with rfl | hrt
    · have hcontrib : searchContribution q r = [r] := by
        rw [searchContribution, if_pos hname]
      have h0 : countRec r (searchList q t) = 0 := by
        apply countRec_eq_zero
        intro y hy
        have hyt : y ∈ t := ((mem_searchList q t y).1 hy).1
        intro heq
        subst heq
        exact (List.nodup_cons.1 hnd).1 hyt
      rw [hcontrib, h0, countRec, countRec, if_pos rfl]
    · have hxr : x ≠ r := fun h => (List.nodup_cons.1 hnd).1 (h ▸ hrt)
      have h0 : countRec r (searchContribution q x) = 0 := by
        apply countRec_eq_zero
        intro y hy
        have hyx : y = x := ((mem_searchContribution q x y).1 hy).1
        subst hyx
        exact hxr
      rw [h0, ih (List.nodup_cons.1 hnd).2 hrt]

/-- C8: `search(query)` returns exactly the records whose lower-cased name
or one of whose lower-cased phone values contains the lower-cased query as
a substring; and a record whose name matches is appended exactly once — the
phone loop sits in the `else` branch, so a name match short-circuits and no
duplicate arises from phone matches on the same record. -/
theorem C8_search_spec (b : AddressBook) (query : String) (r : Record) :
    (r ∈ AddressBook.search b query ↔ r ∈ bookValues b ∧ searchSpecMatch query r = true)
    ∧ ((bookValues b).Nodup → r ∈ bookValues b →
        pyIn (pyToLower query) (pyToLower r.name) = true →
        countRec r (AddressBook.search b query) = 1) := by
  constructor
  · rw [AddressBook.search, searchSpecMatch]
    exact mem_searchList (pyToLower query) (bookValues b) r
  · intro hnd hr hname
    rw [AddressBook.search]
    exact countRec_searchList_name_match _ _ _ hnd hr hname

/-- C8 witness: on the concrete two-contact book, the case-insensitive
query "AN" matches the record named "Ann" exactly once. -/
theorem C8_search_witness :
    countRec ⟨"Ann", [⟨0, some "+380991234567"⟩], none⟩
        (AddressBook.search searchBook "AN") = 1 :=
  (C8_search_spec searchBook "AN" ⟨"Ann", [⟨0, some "+380991234567"⟩], none⟩).2
    (by decide) (by decide) (by decide)

/-- The digit characters are digits with the expected numeric values. -/
theorem digitChar_spec (k : Nat) (h : k ≤ 9) :
    (digitChar k).isDigit = true ∧ chVal (digitChar k) = k := by
  interval_cases k <;> exact ⟨rfl, rfl⟩

/-- The `%d` field accepts every zero-padded day `1..31` and consumes
exactly its two characters. -/
theorem parseDay_pad2 (d : Nat) (h1 : 1 ≤ d) (h2 : d ≤ 31) (rest : List Char) :
    parseDay (pad2 d ++ rest) = some (d, rest) := by
  interval_cases d <;> rfl

/-- The `%m` field accepts every zero-padded month `1..12`. -/
theorem parseMonth_pad2 (m : Nat) (h1 : 1 ≤ m) (h2 : m ≤ 12) (rest : List Char) :
    parseMonth (pad2 m ++ rest) = some (m, rest) := by
  interval_cases m <;> rfl

/-- The `%Y` field accepts every zero-padded four-digit year. -/
theorem parseYear_pad4 (y : Nat) (h : y ≤ 9999) (rest : List Char) :
    parseYear (pad4 y ++ rest) = some (y, rest) := by
  have h1 : y / 1000 ≤ 9 := by omega
  have h2 : y / 100 % 10 ≤ 9 := by omega
  have h3 : y / 10 % 10 ≤ 9 := by omega
  have h4 : y % 10 ≤ 9 := by omega
  simp only [pad4, List.cons_append, List.nil_append]
  simp only [parseYear]
  rw [if_pos ⟨(digitChar_spec _ h1).1, (digitChar_spec _ h2).1,
      (digitChar_spec _ h3).1, (digitChar_spec _ h4).1⟩]
  rw [(digitChar_spec _ h1).2, (digitChar_spec _ h2).2,
      (digitChar_spec _ h3).2, (digitChar_spec _ h4).2]
  have hy : y / 1000 * 1000 + y / 100 % 10 * 100 + y / 10 % 10 * 10 + y % 10 = y := by
    omega
  rw [hy]

/-- Months never exceed 31 days. -/
theorem daysInMonth_le_31 (y m : Nat) : daysInMonth y m ≤ 31 := by
  rw [daysInMonth]
  split
  · split <;> omega
  · split <;> omega

/-- `strptime("%d.%m.%Y")` accepts every strictly formatted `dd.mm.yyyy`
rendering of a real calendar date and parses it to that date. -/
theorem strptime_render (d m y : Nat) (h1 : 1 ≤ d) (h2 : d ≤ daysInMonth y m)
    (h3 : 1 ≤ m) (h4 : m ≤ 12) (h5 : 1 ≤ y) (h6 : y ≤ 9999) :
    strptime_dmY (renderDate d m y).data = some ⟨y, m, d⟩ := by
  have hd31 : d ≤ 31 := le_trans h2 (daysInMonth_le_31 y m)
  have hrd : (renderDate d m y).data = pad2 d ++ '.' :: (pad2 m ++ '.' :: pad4 y) := rfl
  have hy := parseYear_pad4 y h6 []
  rw [List.append_nil] at hy
  rw [hrd]
  simp only [strptime_dmY, parseDay_pad2 d h1 hd31, parseMonth_pad2 m h3 h4, hy]
  rw [if_pos trivial, if_pos ⟨h5, h3, h4, h1, h2⟩]

/-- C9 counterexample: claimed: when the text is not a valid `dd.mm.yyyy`
date, `set_birthday` leaves the stored birthday unchanged and returns a
failure message.  The text "1.1.2023" is not of the claimed strict shape
(one-digit day and month), yet the code parses it under the lenient
`%d.%m.%Y` format, stores 1 January 2023, and returns the success
message. -/
theorem C9_lenient_parse_counterexample :
    ddmmyyyyStrict "1.1.2023" = false
    ∧ Record.set_birthday ⟨"bob", [], none⟩ "1.1.2023"
        = (⟨"bob", [], some ⟨2023, 1, 1⟩⟩, "Birthday set for bob") := by
  decide

/-- C9 (amended): `set_birthday` never raises; every text that parses under
`%d.%m.%Y` — in particular every strictly formatted `dd.mm.yyyy` real date,
as the first part states — is stored with a success message, and every text
the format rejects leaves the record untouched with the failure message. -/
theorem C9_set_birthday_amended (r : Record) (t : String) (d m y : Nat) :
    (1 ≤ d → d ≤ daysInMonth y m → 1 ≤ m → m ≤ 12 → 1 ≤ y → y ≤ 9999 →
      Record.set_birthday r (renderDate d m y)
        = ({r with birthday := some ⟨y, m, d⟩}, "Birthday set for " ++ r.name))
    ∧ (strptime_dmY t.data = none →
        Record.set_birthday r t
          = (r, "Invalid birthday format. Please use dd.mm.yyyy format.")) := by
  constructor
  · intro h1 h2 h3 h4 h5 h6
    rw [Record.set_birthday, strptime_render d m y h1 h2 h3 h4 h5 h6]
  · intro hn
    rw [Record.set_birthday, hn]

/-- C9 witness: a strict date is stored with the success message, and an
unparseable text leaves the record unchanged with the failure message. -/
theorem C9_set_birthday_witness :
    Record.set_birthday ⟨"bob", [], none⟩ (renderDate 14 2 1990)
        = (⟨"bob", [], some ⟨1990, 2, 14⟩⟩, "Birthday set for bob")
    ∧ Record.set_birthday ⟨"bob", [], none⟩ "garbage"
        = (⟨"bob", [], none⟩, "Invalid birthday format. Please use dd.mm.yyyy format.") :=
  ⟨(C9_set_birthday_amended ⟨"bob", [], none⟩ "garbage" 14 2 1990).1
      (by decide) (by decide) (by decide) (by decide) (by decide) (by decide),
    (C9_set_birthday_amended ⟨"bob", [], none⟩ "garbage" 14 2 1990).2 (by decide)⟩

/-- Decoding inverts phone encoding, reallocating the object id. -/
theorem decPhone_enc (p : Phone) (oid : Nat) (ts : List PTok) :
    decPhone oid (encPhone p ++ ts) = some (⟨oid, p.value⟩, ts) := by
  cases p with
  | mk o v => cases v <;> rfl

/-- Decoding inverts phone-list encoding up to fresh object ids: the string
values come back unchanged and in order. -/
theorem decPhones_enc (ps : List Phone) (oid : Nat) (ts : List PTok) :
    ∃ ps', decPhones oid ps.length (encPhones ps ++ ts) = some (ps', oid + ps.length, ts)
      ∧ ps'.map Phone.value = ps.map Phone.value := by
  induction ps generalizing oid with
  | nil => exact ⟨[], rfl, rfl⟩
  | cons p t ih =>
    obtain ⟨ps', hdec, hval⟩ := ih (oid + 1)
    refine ⟨⟨oid, p.value⟩ :: ps', ?_, ?_⟩
    · simp only [encPhones, List.append_assoc, List.length_cons, decPhones,
        decPhone_enc, hdec]
      have h : oid + 1 + t.length = oid + (t.length + 1) := by omega
      rw [h]
    · simp [hval]

/-- Decoding inverts the optional-birthday encoding exactly. -/
theorem decOptDate_enc (bd : Option PyDate) (ts : List PTok) :
    decOptDate (encOptDate bd ++ ts) = some (bd, ts) := by
  cases bd with
  | none => rfl
  | some dt => rfl

/-- Decoding inverts record encoding up to fresh phone object ids: name,
phone values and birthday are preserved. -/
theorem decRec_enc (r : Record) (oid : Nat) (ts : List PTok) :
    ∃ r', decRec oid (encRec r ++ ts) = some (r', oid + r.phones.length, ts)
      ∧ recObs r' = recObs r := by
  obtain ⟨ps', hdec, hval⟩ := decPhones_enc r.phones oid (encOptDate r.birthday ++ ts)
  refine ⟨⟨r.name, ps', r.birthday⟩, ?_, ?_⟩
  · simp only [encRec, List.cons_append, List.append_assoc, decRec, hdec, decOptDate_enc]
  · simp [recObs, hval]

/-- Decoding inverts the encoding of the whole mapping, observably. -/
theorem decEntries_enc (b : AddressBook) (oid : Nat) (ts : List PTok) :
    ∃ b' oid', decEntries oid b.length (encBook b ++ ts) = some (b', oid', ts)
      ∧ bookObs b' = bookObs b := by
  induction b generalizing oid with
  | nil => exact ⟨[], oid, rfl, rfl⟩
  | cons e t ih =>
    obtain ⟨k, r⟩ := e
    obtain ⟨r', hr, hrobs⟩ := decRec_enc r oid (encBook t ++ ts)
    obtain ⟨b', oid', hb, hbobs⟩ := ih (oid + r.phones.length)
    refine ⟨(k, r') :: b', oid', ?_, ?_⟩
    · simp only [encBook, List.cons_append, List.append_assoc, List.length_cons,
        decEntries, hr, hb]
    · simp only [bookObs, List.map_cons] at hbobs ⊢
      rw [hrobs, hbobs]

/-- `pickle.load` inverts `pickle.dump` on every mapping, observably. -/
theorem pickleLoad_dump (b : AddressBook) (oid : Nat) :
    ∃ b' oid', pickleLoad (pickleDump b) oid = some (b', oid') ∧ bookObs b' = bookObs b := by
  obtain ⟨b', oid', hdec, hobs⟩ := decEntries_enc b oid []
  rw [List.append_nil] at hdec
  exact ⟨b', oid', by simp only [pickleLoad, pickleDump, hdec], hobs⟩

/-- Reading a path just written returns the written content. -/
theorem assocGet_assocSet {α : Type} (fs : List (String × α)) (k : String) (v : α) :
    assocGet (assocSet fs k v) k = some v := by
  induction fs with
  | nil => simp [assocSet, assocGet]
  | cons e t ih =>
    obtain ⟨k₀, v₀⟩ := e
    by_cases h : (k₀ == k) = true
    · simp [assocSet, assocGet, h]
    · simp only [assocSet, Bool.not_eq_true] at *
      rw [if_neg (by simp [h])]
      rw [assocGet, if_neg (by simp [h])]
      exact ih

/-- C1: for every address book, file system, path and object counter,
`save(path)` followed by `load(path)` succeeds and restores a mapping with
the same keys in order, and per record the same name, the same phone string
values in order, and the same birthday (only the unobservable object ids
are reallocated) — the save/load round trip is faithful. -/
theorem C1_save_load_roundtrip (b : AddressBook) (fs : BinFS) (path : String) (oid : Nat) :
    ∃ b' oid', AddressBook.load (AddressBook.save fs path b) path oid = .ok (b', oid')
      ∧ bookObs b' = bookObs b := by
  obtain ⟨b', oid', hload, hobs⟩ := pickleLoad_dump b oid
  refine ⟨b', oid', ?_, hobs⟩
  simp only [AddressBook.load, AddressBook.save, assocGet_assocSet, hload]
